import Mathlib

/-
Verification development for `src/sandbox/proxySandbox.ts` (qiankun proxy
sandbox).  The TypeScript source is shallowly embedded below: objects whose
traps only ever read or write own data entries are modelled as finite maps
`PKey → Option JSValue`, JS values are modelled by an inductive type carrying
explicit object identities, and every trap of the two `Proxy` handlers is
translated branch by branch from the source.  Descriptor attributes
(writability / configurability enforcement by the JS engine) are outside the
model: the fake window and fake document are modelled as key-value stores, as
the specification itself does.  `process.env.NODE_ENV` is fixed to a
production build (`nodeEnvTest = false`), so the `mockTop` / `mockSafariTop`
test-only branches are present but disabled, and `console` logging (which has
no effect on sandbox state) is dropped.
-/

/-- Receiver objects a function value can be bound to
(`rawWindow` / `rawDocument` in the source). -/
inductive JSTarget where
  | rawWindowT
  | rawDocumentT
deriving DecidableEq, Repr

/-- JavaScript values, at the granularity the sandbox observes them:
primitives, plain objects with an identity, functions with an identity and an
optional bound receiver, and the distinguished objects that the proxy traps
return (`proxy`, `documentProxy`, the `hasOwnProperty` closure, the
`unscopables` literal, the raw window / document themselves).
`createElemFn owner bound` is the element-creation function the
dynamic-append collaborator produces for the owner identity `owner`. -/
inductive JSValue where
  | undef
  | jsNull
  | bool (b : Bool)
  | num (n : Int)
  | str (s : String)
  | obj (id : Nat)
  | fn (id : Nat) (bound : Option JSTarget)
  | createElemFn (owner : JSValue) (bound : Option JSTarget)
  | proxyRef (id : Nat)
  | docProxyRef (id : Nat)
  | hasOwnPropFn (id : Nat)
  | unscopablesObj
  | rawWindowObj
  | rawDocumentObj
deriving DecidableEq, Repr

/-- JavaScript truthiness: `undefined`, `null`, `false`, `0` and `""` are
falsy, every object and function is truthy.  This is what the source's
`(target as any)[p] || (rawWindow as any)[p]` evaluates on its left operand. -/
def JSValue.toBool : JSValue → Bool
  | .undef => false
  | .jsNull => false
  | .bool b => b
  | .num n => n != 0
  | .str s => s != ""
  | _ => true

/-- Modelled from the spec: `getTargetValue` lives in `sandbox/common.ts`,
which is not part of the sources; per the spec, "any function-typed result
must be rebound so its receiver is the Shared Global Object" (resp. the
Shared Document Root).  Non-function values pass through unchanged. -/
def getTargetValue (target : JSTarget) (value : JSValue) : JSValue :=
  match value with
  | .fn id _ => .fn id (some target)
  | .createElemFn owner _ => .createElemFn owner (some target)
  | v => v

/-- Property keys: strings, plus the two symbols the source uses
(`Symbol.unscopables` and `attachDocProxySymbol` from `sandbox/common.ts`). -/
inductive PKey where
  | str (s : String)
  | symbolUnscopables
  | attachDocProxySymbol
deriving DecidableEq, Repr

/-- The own keys of the `unscopables` object literal (source lines 17-29). -/
def unscopablesKeys : List String :=
  ["undefined", "Array", "Object", "String", "Boolean", "Math", "eval",
   "Number", "Symbol", "parseFloat", "Float32Array"]

/-- Own property names of `Object.prototype`: every plain object literal
(the fake window, the fake document, the `unscopables` literal) and the raw
window inherit these, so the `in` operator reports them as present. -/
def objectProtoKeys : List String :=
  ["constructor", "hasOwnProperty", "isPrototypeOf", "propertyIsEnumerable",
   "toLocaleString", "toString", "valueOf", "__proto__", "__defineGetter__",
   "__defineSetter__", "__lookupGetter__", "__lookupSetter__"]

/-- Whether `p` is inherited from `Object.prototype`. -/
def isObjectProtoKey : PKey → Bool
  | .str s => decide (s ∈ objectProtoKeys)
  | _ => false

/-- Whether `p` is an own key of the `unscopables` literal. -/
def unscopablesOwnKey : PKey → Bool
  | .str s => decide (s ∈ unscopablesKeys)
  | _ => false

/-- The `p in unscopables` check of the `has` trap: own keys of the literal
plus the `Object.prototype` members it inherits. -/
def unscopablesIn (p : PKey) : Bool :=
  unscopablesOwnKey p || isObjectProtoKey p

/-- The shared global object (`rawWindow = window`), as the sandbox observes
it: current values of its own properties, the two descriptor attributes
`createFakeWindow` inspects (non-configurability and presence of a `get`
accessor), and membership of its prototype chain beyond `Object.prototype`. -/
structure RawWin where
  vals : PKey → Option JSValue
  nonCfg : PKey → Bool
  hasGetter : PKey → Bool
  protoMember : PKey → Bool

/-- `rawWindow.hasOwnProperty(p)`. -/
def RawWin.own (w : RawWin) (p : PKey) : Bool := (w.vals p).isSome

/-- `p in rawWindow`: own properties, the window's prototype chain, and the
`Object.prototype` tail every window inherits. -/
def RawWin.member (w : RawWin) (p : PKey) : Bool :=
  w.own p || w.protoMember p || isObjectProtoKey p

/-- Result of `createFakeWindow`. -/
structure FakeWindowResult where
  fakeWindow : PKey → Option JSValue
  propertiesWithGetter : PKey → Bool

/-- `createFakeWindow` (source lines 39-96): copy every non-configurable own
property of the global onto a fresh fake window, and record in
`propertiesWithGetter` those whose descriptor carries a `get` accessor.
The source also relaxes the copied descriptor of the alias keys
(`top` / `parent` / `self` / `window`) to configurable (and writable when it
is a data descriptor) and freezes each copied descriptor; these are
descriptor attributes, which the key-value model does not track.  An
accessor-backed copy is represented by the global's current value; no trap
ever reads the fake window at a getter-backed key. -/
def createFakeWindow (global : RawWin) : FakeWindowResult :=
  { fakeWindow := fun p =>
      if global.own p && global.nonCfg p then some ((global.vals p).getD .undef)
      else none
    propertiesWithGetter := fun p =>
      global.own p && global.nonCfg p && global.hasGetter p }

/-- A `ProxySandbox` instance: its identity (`id` distinguishes the proxy
handles of distinct instances), `name`, the captured `rawWindow`, the fake
window produced by `createFakeWindow` together with its getter-key set, the
`updatedValueSet` (a JS `Set`, modelled as an insertion-ordered duplicate-free
list) and the `sandboxRunning` flag. -/
structure ProxySandbox where
  id : Nat
  name : String
  rawWindow : RawWin
  fakeWindow : PKey → Option JSValue
  propertiesWithGetter : PKey → Bool
  updatedValueSet : List PKey
  sandboxRunning : Bool

/-- The constructor (source lines 133-320): snapshot the global via
`createFakeWindow`; the mutation set starts empty and `sandboxRunning` is
initialised to `true` by its field initialiser (line 115). -/
def ProxySandbox.new (id : Nat) (name : String) (raw : RawWin) : ProxySandbox :=
  let r := createFakeWindow raw
  { id := id
    name := name
    rawWindow := raw
    fakeWindow := r.fakeWindow
    propertiesWithGetter := r.propertiesWithGetter
    updatedValueSet := []
    sandboxRunning := true }

/-- The instance's window proxy handle, as a JS value. -/
def ProxySandbox.proxy (sb : ProxySandbox) : JSValue := .proxyRef sb.id

/-- The instance's document proxy handle, as a JS value. -/
def ProxySandbox.documentProxy (sb : ProxySandbox) : JSValue := .docProxyRef sb.id

/-- `active()` (source lines 117-120), with the module-level
`activeSandboxCount` passed explicitly: the counter is incremented only when
the instance is not currently running. -/
def ProxySandbox.active (sb : ProxySandbox) (activeSandboxCount : Int) :
    Int × ProxySandbox :=
  (if !sb.sandboxRunning then activeSandboxCount + 1 else activeSandboxCount,
   { sb with sandboxRunning := true })

/-- What `inactive()` produces: the new counter value, the two arguments
passed to the noise-suppression collaborator's teardown hook
`clearSystemJsProps(this.proxy, --activeSandboxCount === 0)`, and the
deactivated instance. -/
structure InactiveResult where
  activeSandboxCount : Int
  clearProxyArg : JSValue
  isLastActive : Bool
  sandbox : ProxySandbox

/-- `inactive()` (source lines 122-131): pre-decrement the counter, pass the
decremented value's comparison with 0 to the teardown hook, and stop running.
The development-mode `console.info` has no state effect. -/
def ProxySandbox.inactive (sb : ProxySandbox) (activeSandboxCount : Int) :
    InactiveResult :=
  { activeSandboxCount := activeSandboxCount - 1
    clearProxyArg := sb.proxy
    isLastActive := activeSandboxCount - 1 == 0
    sandbox := { sb with sandboxRunning := false } }

/-- `new Set().add(p)`: append when absent (JS sets are insertion ordered). -/
def setAdd (l : List PKey) (p : PKey) : List PKey :=
  if p ∈ l then l else l ++ [p]

/-- `Set.delete(p)`. -/
def setDelete (l : List PKey) (p : PKey) : List PKey := l.erase p

/-- `process.env.NODE_ENV === 'test'`: false in a production build. -/
def nodeEnvTest : Bool := false

/-- The window proxy's `set` trap (source lines 208-225): while running,
store into the fake window and record the key in `updatedValueSet`
(`interceptSystemJsProps` notifies the external noise-suppression
collaborator and does not touch sandbox state); while inactive, warn in
development mode and still report success, because returning `false` would
make strict-mode code throw a `TypeError`. -/
def windowSet (sb : ProxySandbox) (p : PKey) (value : JSValue) :
    Bool × ProxySandbox :=
  if sb.sandboxRunning then
    (true,
     { sb with
        fakeWindow := fun k => if k = p then some value else sb.fakeWindow k
        updatedValueSet := setAdd sb.updatedValueSet p })
  else
    (true, sb)

/-- The fake document's own entries (`fakeDocument` in the source). -/
def FakeDocument : Type := PKey → Option JSValue

/-- Modelled from the spec: `getCreateElement` lives in
`sandbox/patchers/dynamicAppend.ts`, which is not part of the sources; per
the spec, the dynamic-append collaborator resolves an element-creation
function scoped to the given owner identity. -/
def getCreateElement (ownerIdentity : JSValue) : JSValue :=
  .createElemFn ownerIdentity none

/-- The document proxy's `set` trap (source lines 151-174): writing the
attribution symbol with a new value stores the tag and caches an
element-creation function for that owner, rebound to the raw document;
writing `createElement` stores the caller's override rebound to the raw
document; everything else is a plain `Reflect.set` on the fake document. -/
def documentSet (target : FakeDocument) (p : PKey) (value : JSValue) :
    Bool × FakeDocument :=
  if p = PKey.attachDocProxySymbol ∧ target p ≠ some value then
    let t1 : FakeDocument := fun k => if k = p then some value else target k
    (true, fun k =>
      if k = PKey.str "createElement" then
        some (getTargetValue .rawDocumentT (getCreateElement value))
      else t1 k)
  else if p = PKey.str "createElement" then
    (true, fun k =>
      if k = PKey.str "createElement" then
        some (getTargetValue .rawDocumentT value)
      else target k)
  else
    (true, fun k => if k = p then some value else target k)

/-- The document proxy's `deleteProperty` trap (source lines 193-204): for
the attribution symbol or `createElement` the source executes
`delete target[p]; delete target.createElement;` — i.e. it deletes the key
that was named and then `createElement` — and reports success; otherwise a
plain `Reflect.deleteProperty`, which always succeeds on the fake document's
assignment-created (hence configurable) entries. -/
def documentDeleteProperty (target : FakeDocument) (p : PKey) :
    Bool × FakeDocument :=
  if p = PKey.attachDocProxySymbol ∨ p = PKey.str "createElement" then
    let t1 : FakeDocument := fun k => if k = p then none else target k
    (true, fun k => if k = PKey.str "createElement" then none else t1 k)
  else
    (true, fun k => if k = p then none else target k)

/-- The window proxy's `get` trap (source lines 227-257).  Reading
`Symbol.unscopables` returns the `unscopables` literal; the alias keys
(`top`, `parent`, `window`, `self`, and in a test build `mockTop` /
`mockSafariTop`) return the proxy itself; `hasOwnProperty` returns the
closure checking both the fake and the raw window; `document` first tags the
document proxy with this instance's proxy (through the document proxy's `set`
trap, hence the updated fake document in the result) and then returns the
document proxy; otherwise the value is read live from the raw window when the
key is getter-backed and as `target[p] || rawWindow[p]` when it is not, and
the result is passed through `getTargetValue`. -/
def windowGet (sb : ProxySandbox) (doc : FakeDocument) (p : PKey) :
    JSValue × FakeDocument :=
  if p = PKey.symbolUnscopables then (.unscopablesObj, doc)
  else if p = PKey.str "top" ∨ p = PKey.str "parent" ∨ p = PKey.str "window" ∨
      p = PKey.str "self" ∨
      (nodeEnvTest = true ∧ (p = PKey.str "mockTop" ∨ p = PKey.str "mockSafariTop")) then
    (sb.proxy, doc)
  else if p = PKey.str "hasOwnProperty" then (.hasOwnPropFn sb.id, doc)
  else if p = PKey.str "document" then
    let r := documentSet doc PKey.attachDocProxySymbol sb.proxy
    (sb.documentProxy, r.2)
  else
    let value :=
      if sb.propertiesWithGetter p then (sb.rawWindow.vals p).getD .undef
      else
        let tv := (sb.fakeWindow p).getD .undef
        if tv.toBool then tv else (sb.rawWindow.vals p).getD .undef
    (getTargetValue .rawWindowT value, doc)

/-- The window proxy's `has` trap (source lines 261-263):
`p in unscopables || p in target || p in rawWindow`, where the `in` operator
also sees the `Object.prototype` members each object inherits. -/
def windowHas (sb : ProxySandbox) (p : PKey) : Bool :=
  unscopablesIn p || ((sb.fakeWindow p).isSome || isObjectProtoKey p) ||
    sb.rawWindow.member p

/-- The window proxy's `deleteProperty` trap (source lines 305-315): when the
fake window owns the key, remove it there and from `updatedValueSet`; either
way report success. -/
def windowDeleteProperty (sb : ProxySandbox) (p : PKey) : Bool × ProxySandbox :=
  if (sb.fakeWindow p).isSome then
    (true,
     { sb with
        fakeWindow := fun k => if k = p then none else sb.fakeWindow k
        updatedValueSet := setDelete sb.updatedValueSet p })
  else
    (true, sb)

/-- The `hasOwnProperty` closure of the constructor (source line 146). -/
def hasOwnPropertyFn (sb : ProxySandbox) (p : PKey) : Bool :=
  (sb.fakeWindow p).isSome || sb.rawWindow.own p

/-- A shared global owning nothing: the smallest environment the traps can
face, used for concrete evaluations at keys the global does not own. -/
def rawEmpty : RawWin :=
  { vals := fun _ => none
    nonCfg := fun _ => false
    hasGetter := fun _ => false
    protoMember := fun _ => false }

/-- Names that every browser global owns (the HTML `Window` attributes the
get trap special-cases) or inherits, together with the ECMAScript-mandated
value properties that name the `unscopables` entries. -/
def stdWindowKeys : List String :=
  ["top", "parent", "window", "self", "document", "hasOwnProperty"] ++
    unscopablesKeys

/-- The environment assumption that the shared global is a browser global:
all of `stdWindowKeys` are among its members. -/
abbrev stdGlobals (w : RawWin) : Prop :=
  ∀ s ∈ stdWindowKeys, w.member (PKey.str s) = true

/-- A concrete browser-shaped shared global: it owns exactly the
`stdWindowKeys`, all as configurable data properties. -/
def rawStd : RawWin :=
  { vals := fun p =>
      match p with
      | .str s => if s ∈ stdWindowKeys then some (.obj 100) else none
      | _ => none
    nonCfg := fun _ => false
    hasGetter := fun _ => false
    protoMember := fun _ => false }

/-- A shared global owning `counter` with value `5` as an ordinary
configurable data property. -/
def rawCounter5 : RawWin :=
  { vals := fun p => if p = PKey.str "counter" then some (.num 5) else none
    nonCfg := fun _ => false
    hasGetter := fun _ => false
    protoMember := fun _ => false }

/-- A Safari-shaped shared global whose `top` is a non-configurable accessor
property (the shape the source's own comment at lines 74-78 describes),
currently evaluating to the object `7`. -/
def rawTopAccessor : RawWin :=
  { vals := fun p => if p = PKey.str "top" then some (.obj 7) else none
    nonCfg := fun p => p = PKey.str "top"
    hasGetter := fun p => p = PKey.str "top"
    protoMember := fun _ => false }

/-- A shared global whose `location` is a non-configurable accessor property
currently evaluating to the object `3`. -/
def rawLocation : RawWin :=
  { vals := fun p => if p = PKey.str "location" then some (.obj 3) else none
    nonCfg := fun p => p = PKey.str "location"
    hasGetter := fun p => p = PKey.str "location"
    protoMember := fun _ => false }

/-- A fake document with no own entries yet. -/
def emptyDoc : FakeDocument := fun _ => none

/-- C1: the claim fails on the code.  Over a shared global without
`counter`, a fresh (Running) instance performs `Write("counter", 0)`; the
overlay then owns `counter` with value `0`, yet `Read("counter")` returns
`undefined`, because the get trap computes `target[p] || rawWindow[p]` and
the falsy overlay value falls through.  Over a shared global owning
`counter = 5`, the same write makes `Read("counter")` return `5` instead of
the written `0`. -/
theorem c1_falsy_write_read_eval :
    (windowSet (ProxySandbox.new 0 "A" rawEmpty) (PKey.str "counter")
        (JSValue.num 0)).2.fakeWindow (PKey.str "counter") = some (JSValue.num 0) ∧
    (windowGet (windowSet (ProxySandbox.new 0 "A" rawEmpty) (PKey.str "counter")
        (JSValue.num 0)).2 emptyDoc (PKey.str "counter")).1 = JSValue.undef ∧
    (windowGet (windowSet (ProxySandbox.new 1 "B" rawCounter5) (PKey.str "counter")
        (JSValue.num 0)).2 emptyDoc (PKey.str "counter")).1 = JSValue.num 5 := by
  decide

/-- C2: the claim fails on the code.  With the active-sandbox counter at 0
and two freshly constructed instances (which start Running), `activate(A)`
and `activate(B)` do not increment the counter, so `deactivate(A)` passes
`isLastActive = false` (counter 0 → -1) and `deactivate(B)` also passes
`isLastActive = false` (counter -1 → -2), not `true` as claimed. -/
theorem c2_lifecycle_eval :
    ((((ProxySandbox.new 0 "A" rawEmpty).active 0).2.inactive
        (((ProxySandbox.new 1 "B" rawEmpty).active
          (((ProxySandbox.new 0 "A" rawEmpty).active 0).1)).1)).isLastActive = false) ∧
    ((((ProxySandbox.new 1 "B" rawEmpty).active
        (((ProxySandbox.new 0 "A" rawEmpty).active 0).1)).2.inactive
        ((((ProxySandbox.new 0 "A" rawEmpty).active 0).2.inactive
          (((ProxySandbox.new 1 "B" rawEmpty).active
            (((ProxySandbox.new 0 "A" rawEmpty).active 0).1)).1)).activeSandboxCount)).isLastActive = false) ∧
    ((((ProxySandbox.new 1 "B" rawEmpty).active
        (((ProxySandbox.new 0 "A" rawEmpty).active 0).1)).2.inactive
        ((((ProxySandbox.new 0 "A" rawEmpty).active 0).2.inactive
          (((ProxySandbox.new 1 "B" rawEmpty).active
            (((ProxySandbox.new 0 "A" rawEmpty).active 0).1)).1)).activeSandboxCount)).activeSandboxCount = -2) := by
  decide

/-- C5: the claim fails on the code.  After the document proxy is tagged
(storing the attribution tag and caching the element-creation function),
`Delete("createElement")` reports success and removes the cached function
but leaves the attribution tag in the local overlay, because the source
executes `delete target[p]; delete target.createElement` which deletes the
`createElement` entry twice.  Consequently re-tagging with the same proxy
does not restore `createElement` (the set trap's `target[p] !== value` guard
sees an unchanged tag).  Deleting via the attribution-tag key, by contrast,
removes both entries. -/
theorem c5_delete_createElement_eval :
    (documentSet emptyDoc PKey.attachDocProxySymbol (JSValue.proxyRef 0)).2
        PKey.attachDocProxySymbol = some (JSValue.proxyRef 0) ∧
    (documentSet emptyDoc PKey.attachDocProxySymbol (JSValue.proxyRef 0)).2
        (PKey.str "createElement") =
      some (JSValue.createElemFn (JSValue.proxyRef 0) (some JSTarget.rawDocumentT)) ∧
    (documentDeleteProperty
        (documentSet emptyDoc PKey.attachDocProxySymbol (JSValue.proxyRef 0)).2
        (PKey.str "createElement")).1 = true ∧
    (documentDeleteProperty
        (documentSet emptyDoc PKey.attachDocProxySymbol (JSValue.proxyRef 0)).2
        (PKey.str "createElement")).2 (PKey.str "createElement") = none ∧
    (documentDeleteProperty
        (documentSet emptyDoc PKey.attachDocProxySymbol (JSValue.proxyRef 0)).2
        (PKey.str "createElement")).2 PKey.attachDocProxySymbol =
      some (JSValue.proxyRef 0) ∧
    (documentSet
        (documentDeleteProperty
          (documentSet emptyDoc PKey.attachDocProxySymbol (JSValue.proxyRef 0)).2
          (PKey.str "createElement")).2
        PKey.attachDocProxySymbol (JSValue.proxyRef 0)).2
        (PKey.str "createElement") = none ∧
    (documentDeleteProperty
        (documentSet emptyDoc PKey.attachDocProxySymbol (JSValue.proxyRef 0)).2
        PKey.attachDocProxySymbol).2 PKey.attachDocProxySymbol = none ∧
    (documentDeleteProperty
        (documentSet emptyDoc PKey.attachDocProxySymbol (JSValue.proxyRef 0)).2
        PKey.attachDocProxySymbol).2 (PKey.str "createElement") = none := by
  decide

/-- C3, counterexample: the unscopables marker key (`Symbol.unscopables`) is
absent from both the shared global and the overlay, `Has` is `false` as
claimed, but `Read` returns the `unscopables` literal, not `undefined`. -/
theorem c3_counterexample :
    (ProxySandbox.new 4 "C" rawEmpty).rawWindow.member PKey.symbolUnscopables = false ∧
    (ProxySandbox.new 4 "C" rawEmpty).fakeWindow PKey.symbolUnscopables = none ∧
    windowHas (ProxySandbox.new 4 "C" rawEmpty) PKey.symbolUnscopables = false ∧
    (windowGet (ProxySandbox.new 4 "C" rawEmpty) emptyDoc
        PKey.symbolUnscopables).1 ≠ JSValue.undef := by
  decide

/-- C6, counterexample: on a Safari-shaped global whose `top` is a
non-configurable accessor (the shape the source's own comment describes),
`top` is in the Getter-Backed Key Set, yet after `Write("top", 42)` the read
returns the instance's proxy — the alias branch of the get trap runs first —
and not the shared global's live value (the object `7`). -/
theorem c6_counterexample :
    (ProxySandbox.new 5 "S" rawTopAccessor).propertiesWithGetter (PKey.str "top") = true ∧
    (ProxySandbox.new 5 "S" rawTopAccessor).sandboxRunning = true ∧
    (windowGet (windowSet (ProxySandbox.new 5 "S" rawTopAccessor) (PKey.str "top")
        (JSValue.num 42)).2 emptyDoc (PKey.str "top")).1 = JSValue.proxyRef 5 ∧
    JSValue.proxyRef 5 ≠
      getTargetValue JSTarget.rawWindowT
        ((rawTopAccessor.vals (PKey.str "top")).getD JSValue.undef) := by
  decide

/-- C3 (amended): for every property key other than the unscopables marker
symbol that is absent from both the shared global (not own, not inherited)
and the overlay, and given that the shared global is a browser global (it
has the alias names, `document`, `hasOwnProperty` and the unscopables-map
names among its members), `Has(key)` returns `false` and `Read(key)` returns
`undefined`. -/
theorem c3_absent_key_has_false_read_undefined
    (sb : ProxySandbox) (doc : FakeDocument) (p : PKey)
    (hp : p ≠ PKey.symbolUnscopables)
    (hmem : sb.rawWindow.member p = false)
    (hfw : sb.fakeWindow p = none)
    (hstd : stdGlobals sb.rawWindow) :
    windowHas sb p = false ∧ (windowGet sb doc p).1 = JSValue.undef := by
  have hsplit : (sb.rawWindow.own p = false ∧ sb.rawWindow.protoMember p = false) ∧
      isObjectProtoKey p = false := by
    have h := hmem
    unfold RawWin.member at h
    simpa using h
  obtain ⟨⟨hown, hproto⟩, hobj⟩ := hsplit
  have hvals : sb.rawWindow.vals p = none := by
    unfold RawWin.own at hown
    simpa using hown
  have hne : ∀ s ∈ stdWindowKeys, p ≠ PKey.str s := by
    intro s hs h
    rw [h, hstd s hs] at hmem
    exact Bool.noConfusion hmem
  have huns : unscopablesOwnKey p = false := by
    cases p with
    | str s =>
        unfold unscopablesOwnKey
        rw [decide_eq_false_iff_not]
        intro hin
        exact hne s (by unfold stdWindowKeys; exact List.mem_append_right _ hin) rfl
    | symbolUnscopables => rfl
    | attachDocProxySymbol => rfl
  have htop := hne "top" (by decide)
  have hparent := hne "parent" (by decide)
  have hwin := hne "window" (by decide)
  have hself := hne "self" (by decide)
  have hhop := hne "hasOwnProperty" (by decide)
  have hdoc := hne "document" (by decide)
  constructor
  · simp [windowHas, unscopablesIn, huns, hobj, hmem, hfw]
  · unfold windowGet
    rw [if_neg hp]
    rw [if_neg (by
      rintro (h | h | h | h | ⟨hf, _⟩)
      · exact htop h
      · exact hparent h
      · exact hwin h
      · exact hself h
      · simp [nodeEnvTest] at hf)]
    rw [if_neg hhop, if_neg hdoc]
    cases hg : sb.propertiesWithGetter p <;>
      simp [hg, hvals, hfw, JSValue.toBool, getTargetValue]

/-- C3 witness: a concrete browser-shaped global and the fresh key `zzz`. -/
theorem c3_witness :
    (PKey.str "zzz" ≠ PKey.symbolUnscopables ∧
     (ProxySandbox.new 2 "W" rawStd).rawWindow.member (PKey.str "zzz") = false ∧
     (ProxySandbox.new 2 "W" rawStd).fakeWindow (PKey.str "zzz") = none ∧
     stdGlobals (ProxySandbox.new 2 "W" rawStd).rawWindow) ∧
    (windowHas (ProxySandbox.new 2 "W" rawStd) (PKey.str "zzz") = false ∧
     (windowGet (ProxySandbox.new 2 "W" rawStd) emptyDoc (PKey.str "zzz")).1 =
       JSValue.undef) :=
  ⟨⟨by decide, by decide, by decide, by decide⟩,
   c3_absent_key_has_false_read_undefined _ _ _ (by decide) (by decide) (by decide)
     (by decide)⟩

/-- C4: two instances built over the same shared global are mutually
isolated.  For a key `counter` the shared global does not own, after
instance A (fresh, hence Running) performs `Write("counter", 1)`, reading
`counter` through A's handle yields `1` while reading it through B's handle
yields `undefined`. -/
theorem c4_two_instances_isolated
    (raw : RawWin) (doc1 doc2 : FakeDocument)
    (hc : raw.vals (PKey.str "counter") = none) :
    (windowSet (ProxySandbox.new 0 "A" raw) (PKey.str "counter")
        (JSValue.num 1)).1 = true ∧
    (windowGet (windowSet (ProxySandbox.new 0 "A" raw) (PKey.str "counter")
        (JSValue.num 1)).2 doc1 (PKey.str "counter")).1 = JSValue.num 1 ∧
    (windowGet (ProxySandbox.new 1 "B" raw) doc2
        (PKey.str "counter")).1 = JSValue.undef := by
  refine ⟨rfl, ?_, ?_⟩ <;>
    simp [ProxySandbox.new, windowSet, windowGet, createFakeWindow, RawWin.own,
      hc, getTargetValue, JSValue.toBool, setAdd]

/-- C4 witness: the empty shared global. -/
theorem c4_witness :
    rawEmpty.vals (PKey.str "counter") = none ∧
    ((windowSet (ProxySandbox.new 0 "A" rawEmpty) (PKey.str "counter")
        (JSValue.num 1)).1 = true ∧
     (windowGet (windowSet (ProxySandbox.new 0 "A" rawEmpty) (PKey.str "counter")
        (JSValue.num 1)).2 emptyDoc (PKey.str "counter")).1 = JSValue.num 1 ∧
     (windowGet (ProxySandbox.new 1 "B" rawEmpty) emptyDoc
        (PKey.str "counter")).1 = JSValue.undef) :=
  ⟨by decide, c4_two_instances_isolated rawEmpty emptyDoc emptyDoc (by decide)⟩

/-- C6 (amended): for every key in the Getter-Backed Key Set that the get
trap does not special-case earlier — not one of the self-reference aliases
`top` / `parent` / `window` / `self`, not `hasOwnProperty`, not `document`
and not the unscopables marker — `Write(key, v)` while Running followed by
`Read(key)` returns the shared global's current live value (passed through
the function-rebinding step), not `v`. -/
theorem c6_getter_backed_read_live
    (sb : ProxySandbox) (doc : FakeDocument) (k : PKey) (v : JSValue)
    (hg : sb.propertiesWithGetter k = true)
    (hrun : sb.sandboxRunning = true)
    (h1 : k ≠ PKey.str "top") (h2 : k ≠ PKey.str "parent")
    (h3 : k ≠ PKey.str "window") (h4 : k ≠ PKey.str "self")
    (h5 : k ≠ PKey.str "hasOwnProperty") (h6 : k ≠ PKey.str "document")
    (h7 : k ≠ PKey.symbolUnscopables)
    (hv : v ≠ getTargetValue JSTarget.rawWindowT
        ((sb.rawWindow.vals k).getD JSValue.undef)) :
    (windowSet sb k v).1 = true ∧
    (windowGet (windowSet sb k v).2 doc k).1 =
      getTargetValue JSTarget.rawWindowT ((sb.rawWindow.vals k).getD JSValue.undef) ∧
    (windowGet (windowSet sb k v).2 doc k).1 ≠ v := by
  have hset : (windowSet sb k v).2.propertiesWithGetter = sb.propertiesWithGetter ∧
      (windowSet sb k v).2.rawWindow = sb.rawWindow ∧ (windowSet sb k v).1 = true := by
    simp [windowSet, hrun]
  obtain ⟨hpg, hraw, hok⟩ := hset
  have hread : (windowGet (windowSet sb k v).2 doc k).1 =
      getTargetValue JSTarget.rawWindowT ((sb.rawWindow.vals k).getD JSValue.undef) := by
    unfold windowGet
    rw [if_neg h7]
    rw [if_neg (by
      rintro (h | h | h | h | ⟨hf, _⟩)
      · exact h1 h
      · exact h2 h
      · exact h3 h
      · exact h4 h
      · simp [nodeEnvTest] at hf)]
    rw [if_neg h5, if_neg h6]
    rw [hpg, hraw, if_pos hg]
  exact ⟨hok, hread, by rw [hread]; exact fun h => hv h.symm⟩

/-- C6 witness: a global whose `location` is a non-configurable accessor
currently evaluating to the object `3`; the sandbox writes `9` and reads
back the live object `3`. -/
theorem c6_witness :
    ((ProxySandbox.new 3 "L" rawLocation).propertiesWithGetter
        (PKey.str "location") = true ∧
     (ProxySandbox.new 3 "L" rawLocation).sandboxRunning = true ∧
     JSValue.num 9 ≠ getTargetValue JSTarget.rawWindowT
        (((ProxySandbox.new 3 "L" rawLocation).rawWindow.vals
          (PKey.str "location")).getD JSValue.undef)) ∧
    ((windowSet (ProxySandbox.new 3 "L" rawLocation) (PKey.str "location")
        (JSValue.num 9)).1 = true ∧
     (windowGet (windowSet (ProxySandbox.new 3 "L" rawLocation)
        (PKey.str "location") (JSValue.num 9)).2 emptyDoc (PKey.str "location")).1 =
       getTargetValue JSTarget.rawWindowT
         (((ProxySandbox.new 3 "L" rawLocation).rawWindow.vals
           (PKey.str "location")).getD JSValue.undef) ∧
     (windowGet (windowSet (ProxySandbox.new 3 "L" rawLocation)
        (PKey.str "location") (JSValue.num 9)).2 emptyDoc
        (PKey.str "location")).1 ≠ JSValue.num 9) :=
  ⟨⟨by decide, by decide, by decide⟩,
   c6_getter_backed_read_live (ProxySandbox.new 3 "L" rawLocation) emptyDoc
     (PKey.str "location") (JSValue.num 9) (by decide) (by decide) (by decide)
     (by decide) (by decide) (by decide) (by decide) (by decide) (by decide)
     (by decide)⟩

/-- C7: `Write(key, v)` on an instance whose state is Inactive reports
success, never throws, and leaves the whole instance state — in particular
the Mutation Set — unchanged. -/
theorem c7_write_inactive_noop
    (sb : ProxySandbox) (p : PKey) (v : JSValue)
    (h : sb.sandboxRunning = false) :
    windowSet sb p v = (true, sb) := by
  simp [windowSet, h]

/-- C7 witness: a freshly constructed then deactivated instance. -/
theorem c7_witness :
    ((ProxySandbox.new 0 "A" rawEmpty).inactive 0).sandbox.sandboxRunning = false ∧
    windowSet ((ProxySandbox.new 0 "A" rawEmpty).inactive 0).sandbox
        (PKey.str "x") (JSValue.num 1) =
      (true, ((ProxySandbox.new 0 "A" rawEmpty).inactive 0).sandbox) :=
  ⟨by decide, c7_write_inactive_noop _ _ _ (by decide)⟩

/-- C8: `Delete(key)` always reports success; if the overlay owns the key it
is removed from both the overlay and the Mutation Set, and otherwise the
instance state is untouched.  (The Mutation Set, a JS `Set`, is
duplicate-free.) -/
theorem c8_delete_always_succeeds
    (sb : ProxySandbox) (p : PKey)
    (hnd : sb.updatedValueSet.Nodup) :
    (windowDeleteProperty sb p).1 = true ∧
    ((sb.fakeWindow p).isSome = true →
      (windowDeleteProperty sb p).2.fakeWindow p = none ∧
      p ∉ (windowDeleteProperty sb p).2.updatedValueSet) ∧
    ((sb.fakeWindow p).isSome = false → (windowDeleteProperty sb p).2 = sb) := by
  by_cases h : (sb.fakeWindow p).isSome = true
  · refine ⟨by simp [windowDeleteProperty, h], fun _ => ⟨?_, ?_⟩, fun hf => ?_⟩
    · simp [windowDeleteProperty, h]
    · simp only [windowDeleteProperty, h, if_true]
      intro hmem
      rw [setDelete, List.Nodup.mem_erase_iff hnd] at hmem
      exact hmem.1 rfl
    · rw [h] at hf; exact Bool.noConfusion hf
  · have h' : (sb.fakeWindow p).isSome = false := by simpa using h
    refine ⟨by simp [windowDeleteProperty, h'], fun ht => ?_, fun _ => ?_⟩
    · rw [ht] at h'; exact Bool.noConfusion h'
    · simp [windowDeleteProperty, h']

/-- C8 witness: an instance whose overlay owns `x` (written while running),
with a duplicate-free mutation set. -/
theorem c8_witness :
    ((windowSet (ProxySandbox.new 6 "D" rawEmpty) (PKey.str "x")
        (JSValue.num 1)).2.updatedValueSet.Nodup) ∧
    ((windowDeleteProperty (windowSet (ProxySandbox.new 6 "D" rawEmpty)
        (PKey.str "x") (JSValue.num 1)).2 (PKey.str "x")).1 = true ∧
     (((windowSet (ProxySandbox.new 6 "D" rawEmpty) (PKey.str "x")
        (JSValue.num 1)).2.fakeWindow (PKey.str "x")).isSome = true →
       (windowDeleteProperty (windowSet (ProxySandbox.new 6 "D" rawEmpty)
          (PKey.str "x") (JSValue.num 1)).2 (PKey.str "x")).2.fakeWindow
          (PKey.str "x") = none ∧
       PKey.str "x" ∉ (windowDeleteProperty (windowSet (ProxySandbox.new 6 "D" rawEmpty)
          (PKey.str "x") (JSValue.num 1)).2 (PKey.str "x")).2.updatedValueSet) ∧
     (((windowSet (ProxySandbox.new 6 "D" rawEmpty) (PKey.str "x")
        (JSValue.num 1)).2.fakeWindow (PKey.str "x")).isSome = false →
       (windowDeleteProperty (windowSet (ProxySandbox.new 6 "D" rawEmpty)
          (PKey.str "x") (JSValue.num 1)).2 (PKey.str "x")).2 =
         (windowSet (ProxySandbox.new 6 "D" rawEmpty) (PKey.str "x")
          (JSValue.num 1)).2)) :=
  ⟨by decide, c8_delete_always_succeeds _ _ (by decide)⟩

/-- C9: reading any self-reference alias key through an instance's handle
returns that instance's own proxy handle (same identity), never the raw
shared global object. -/
theorem c9_alias_returns_proxy
    (sb : ProxySandbox) (doc : FakeDocument) (p : PKey)
    (h : p = PKey.str "top" ∨ p = PKey.str "parent" ∨ p = PKey.str "window" ∨
      p = PKey.str "self") :
    (windowGet sb doc p).1 = sb.proxy ∧ sb.proxy ≠ JSValue.rawWindowObj := by
  have hp : p ≠ PKey.symbolUnscopables := by
    rcases h with h | h | h | h <;> subst h <;> decide
  constructor
  · unfold windowGet
    rw [if_neg hp, if_pos (by tauto)]
  · simp [ProxySandbox.proxy]

/-- C9 witness: the alias key `window` on a concrete instance. -/
theorem c9_witness :
    (PKey.str "window" = PKey.str "top" ∨ PKey.str "window" = PKey.str "parent" ∨
     PKey.str "window" = PKey.str "window" ∨ PKey.str "window" = PKey.str "self") ∧
    ((windowGet (ProxySandbox.new 7 "E" rawEmpty) emptyDoc (PKey.str "window")).1 =
       (ProxySandbox.new 7 "E" rawEmpty).proxy ∧
     (ProxySandbox.new 7 "E" rawEmpty).proxy ≠ JSValue.rawWindowObj) :=
  ⟨by decide, c9_alias_returns_proxy _ _ _ (by decide)⟩

/-- C10: every freshly constructed instance starts Running; its first
`activate()` leaves the active-sandbox counter unchanged; and a write
through the handle, with `activate()` never called, succeeds and is
recorded in the Mutation Set and the overlay. -/
theorem c10_fresh_instance_starts_running
    (id : Nat) (nm : String) (raw : RawWin) (c : Int) (k : PKey) (v : JSValue) :
    (ProxySandbox.new id nm raw).sandboxRunning = true ∧
    ((ProxySandbox.new id nm raw).active c).1 = c ∧
    ((ProxySandbox.new id nm raw).active c).2.sandboxRunning = true ∧
    (windowSet (ProxySandbox.new id nm raw) k v).1 = true ∧
    (windowSet (ProxySandbox.new id nm raw) k v).2.updatedValueSet = [k] ∧
    (windowSet (ProxySandbox.new id nm raw) k v).2.fakeWindow k = some v := by
  refine ⟨rfl, ?_, rfl, rfl, ?_, ?_⟩ <;>
    simp [ProxySandbox.new, ProxySandbox.active, windowSet, setAdd]
